import Mathlib

/-!
# Verification of the MediaPipe frame-processing pipeline core

Shallow embedding of the repository's core modules:

* `core/models.py`   — the unified results schema (`unified_results_schema`);
* `core/utils.py`    — `RollingAverage` and `FPSCounter`;
* `core/capture.py`  — `VideoCaptureSource` (handle ownership modelled with an
  explicit allocation world so release of previous handles is observable);
* `core/runner.py`   — `FrameProcessorRunner._run_loop`, `start`, `stop`
  (the Qt signal emissions become an explicit event trace);
* `plugins/__init__.py` — `_load_plugin_from_module` / `discover_plugins`;
* `plugins/*.py`     — the five plugin `process` methods (the external
  MediaPipe inference/drawing capability is an opaque session parameter,
  matching the spec's external-collaborator boundary).

Python floats are modelled as `ℚ`; Python dicts (`dict[str, Any]`) as
association lists over a JSON-like value type.
-/

namespace MediaPipe

/-- JSON-like value type standing in for Python's `Any` as it appears in the
unified results dict: strings, numbers, booleans, `None`, lists and dicts. -/
inductive Val : Type where
  | str (s : String)
  | num (q : ℚ)
  | boolean (b : Bool)
  | null
  | list (xs : List Val)
  | dict (entries : List (String × Val))

/-- A Python `dict[str, Any]` as an ordered association list (insertion order,
as for Python dicts). -/
abbrev PyDict := List (String × Val)

/-- `d[k]` / `k in d`: first value bound to `k`, if any. -/
def dictLookup (d : PyDict) (k : String) : Option Val :=
  match d with
  | [] => none
  | (k', v) :: rest => if k' = k then some v else dictLookup rest k

/-- `core/models.py`: type alias `UnifiedResults = dict[str, Any]`. -/
abbrev UnifiedResults := PyDict

/-- `core/models.py` `unified_results_schema`: build a results dict conforming
to the unified schema.  `None` defaults become empty list / empty dict. -/
def unified_results_schema (pipeline : String) (timestamp_s : ℚ)
    (detections : Option (List Val))
    (landmarks : Option (List Val))
    (metadata : Option PyDict) : UnifiedResults :=
  [ ("pipeline", Val.str pipeline),
    ("timestamp_s", Val.num timestamp_s),
    ("detections", Val.list (match detections with | some d => d | none => [])),
    ("landmarks", Val.list (match landmarks with | some l => l | none => [])),
    ("metadata", Val.dict (match metadata with | some m => m | none => [])) ]

/-! ## `core/utils.py` — rolling metrics -/

/-- `collections.deque(maxlen := m).append v` on a deque currently holding
`xs` (oldest first): append on the right, evicting from the left so that at
most `m` elements remain. -/
def dequeAppend (maxlen : Nat) (xs : List ℚ) (v : ℚ) : List ℚ :=
  let ys := xs ++ [v]
  if maxlen < ys.length then ys.drop (ys.length - maxlen) else ys

/-- `core/utils.py` `RollingAverage`: rolling average over the last
`maxlen` values (`deque(maxlen=maxlen)`). -/
structure RollingAverage where
  maxlen : Nat
  values : List ℚ

/-- `RollingAverage.__init__(maxlen=30)`. -/
def RollingAverage.mk0 (maxlen : Nat) : RollingAverage :=
  ⟨maxlen, []⟩

/-- `RollingAverage.add`. -/
def RollingAverage.add (r : RollingAverage) (value : ℚ) : RollingAverage :=
  { r with values := dequeAppend r.maxlen r.values value }

/-- `RollingAverage.average` property: `0.0` when empty, else the mean. -/
def RollingAverage.average (r : RollingAverage) : ℚ :=
  if r.values = [] then 0 else r.values.sum / r.values.length

/-- `RollingAverage.count` property. -/
def RollingAverage.count (r : RollingAverage) : Nat :=
  r.values.length

/-- `RollingAverage.clear`. -/
def RollingAverage.clear (r : RollingAverage) : RollingAverage :=
  { r with values := [] }

/-- `core/utils.py` `FPSCounter`: FPS and per-frame latency tracking.
`last_time` is the previous `perf_counter` sample (`None` after reset),
`frame_times` the `deque(maxlen=rolling_size)` of intervals, `rolling` the
`RollingAverage(maxlen=rolling_size)` of latencies in ms. -/
structure FPSCounter where
  rolling_size : Nat
  last_time : Option ℚ
  frame_times : List ℚ
  rolling : RollingAverage

/-- `FPSCounter.__init__(rolling_size=30)`. -/
def FPSCounter.init (rolling_size : Nat) : FPSCounter :=
  ⟨rolling_size, none, [], RollingAverage.mk0 rolling_size⟩

/-- The counter as constructed by `FrameProcessorRunner.__init__`:
`FPSCounter()` with the default `rolling_size=30` (both its interval deque
and its `RollingAverage` window get `maxlen=30`). -/
def FPSCounter.default : FPSCounter := FPSCounter.init 30

/-- `FPSCounter.tick`, with the wall clock passed explicitly: `now` is this
call's `time.perf_counter()`.  Returns `((fps, latency_ms), updated counter)`.
On the first call after a reset (`last_time = None`) nothing is pushed and the
latency is `0`; otherwise the interval goes into `frame_times` and the latency
into the rolling window.  `fps = 1.0 / frame_times[-1]` if nonempty else `0`. -/
def FPSCounter.tick (c : FPSCounter) (now : ℚ) : (ℚ × ℚ) × FPSCounter :=
  let (latency_ms, frame_times, rolling) :=
    match c.last_time with
    | none => ((0 : ℚ), c.frame_times, c.rolling)
    | some t =>
        let dt := now - t
        (dt * 1000, dequeAppend c.rolling_size c.frame_times dt,
          c.rolling.add (dt * 1000))
  let fps : ℚ :=
    match frame_times.getLast? with
    | none => 0
    | some dt => 1 / dt
  ((fps, latency_ms),
    { c with last_time := some now, frame_times := frame_times,
             rolling := rolling })

/-- `FPSCounter.rolling_average_ms` property. -/
def FPSCounter.rolling_average_ms (c : FPSCounter) : ℚ :=
  c.rolling.average

/-- `FPSCounter.reset`. -/
def FPSCounter.reset (c : FPSCounter) : FPSCounter :=
  { c with last_time := none, frame_times := [], rolling := c.rolling.clear }

/-! ## `core/capture.py` — video capture source

`cv2.VideoCapture` handles are modelled by an allocation world: each
construction yields a fresh handle id; `release` records the id as released.
Whether a freshly constructed handle actually opens is decided by an oracle
(the platform), which only affects the boolean returned to the caller. -/

/-- Ambient state of `cv2.VideoCapture` handle allocation. -/
structure CaptureWorld where
  nextId : Nat
  released : List Nat

/-- A process that has constructed no capture handles yet. -/
def CaptureWorld.start0 : CaptureWorld := ⟨0, []⟩

/-- `core/capture.py` `VideoCaptureSource` instance state: `_cap` (the handle,
`None` when closed), `_source_path` (`None` = webcam), `_camera_index`. -/
structure VideoCaptureSource where
  cap : Option Nat
  source_path : Option String
  camera_index : Nat

/-- `VideoCaptureSource.__init__`. -/
def VideoCaptureSource.init : VideoCaptureSource := ⟨none, none, 0⟩

/-- `VideoCaptureSource.close`: release the current handle if any, clear
`_cap` and `_source_path`. -/
def VideoCaptureSource.close (s : VideoCaptureSource) (w : CaptureWorld) :
    VideoCaptureSource × CaptureWorld :=
  match s.cap with
  | some h =>
      ({ s with cap := none, source_path := none },
       { w with released := h :: w.released })
  | none => ({ s with source_path := none }, w)

/-- `VideoCaptureSource.open_camera`: close any existing source, construct a
new `cv2.VideoCapture(index)` and return `isOpened()` (per the oracle). -/
def VideoCaptureSource.open_camera (opensOk : Nat → Bool)
    (s : VideoCaptureSource) (w : CaptureWorld) (index : Nat) :
    (VideoCaptureSource × CaptureWorld) × Bool :=
  let (s1, w1) := s.close w
  let h := w1.nextId
  (({ s1 with cap := some h, source_path := none, camera_index := index },
    { w1 with nextId := w1.nextId + 1 }), opensOk h)

/-- `VideoCaptureSource.open_file`: close any existing source, construct a
new `cv2.VideoCapture(path)` and return `isOpened()` (per the oracle). -/
def VideoCaptureSource.open_file (opensOk : Nat → Bool)
    (s : VideoCaptureSource) (w : CaptureWorld) (path : String) :
    (VideoCaptureSource × CaptureWorld) × Bool :=
  let (s1, w1) := s.close w
  let h := w1.nextId
  (({ s1 with cap := some h, source_path := some path },
    { w1 with nextId := w1.nextId + 1 }), opensOk h)

/-- One call against a `VideoCaptureSource` that can change which handle is
held. -/
inductive CapOp : Type where
  | openCamera (index : Nat)
  | openFile (path : String)
  | closeSource

/-- Apply one operation (the returned success boolean is discarded, as the
state does not depend on it). -/
def applyCapOp (opensOk : Nat → Bool)
    (sw : VideoCaptureSource × CaptureWorld) : CapOp →
    VideoCaptureSource × CaptureWorld
  | .openCamera index => (VideoCaptureSource.open_camera opensOk sw.1 sw.2 index).1
  | .openFile path => (VideoCaptureSource.open_file opensOk sw.1 sw.2 path).1
  | .closeSource => sw.1.close sw.2

/-- Run a sequence of open/close calls from a fresh source and world. -/
def runCapOps (opensOk : Nat → Bool) (ops : List CapOp) :
    VideoCaptureSource × CaptureWorld :=
  ops.foldl (applyCapOp opensOk) (VideoCaptureSource.init, CaptureWorld.start0)

/-- Handle-ownership invariant: every constructed handle is either the one
currently held or has been released; the held handle (if any) was constructed
and not released; and a closed source has no `source_path`. -/
def capInv (s : VideoCaptureSource) (w : CaptureWorld) : Prop :=
  (∀ h, h < w.nextId → s.cap = some h ∨ h ∈ w.released) ∧
  (∀ h, s.cap = some h → h < w.nextId ∧ h ∉ w.released) ∧
  (s.cap = none → s.source_path = none) ∧
  (∀ h ∈ w.released, h < w.nextId)

/-! ## `core/runner.py` — frame processor runner

The worker loop is embedded as a recursive function over the sequence of
frames the capture source will deliver (an empty remainder is a failed
`read()`, i.e. end-of-stream).  Qt signal emissions become an explicit event
trace.  `time.perf_counter()` is an oracle: `tsClk i` is the timestamp taken
at loop iteration `i`, `tkClk i` the sample taken inside `tick()` at that
iteration.  The cooperative stop flag is modelled by `stopReq i` = "`stop()`
has been called before the loop-condition check of iteration `i`"; the
capture source is assumed to stay opened for the duration of the run (closing
it concurrently is outside the claims considered here). -/

/-- An opaque frame buffer (identity only; pixel math is external). -/
abbrev Frame := Nat

/-- The active plugin as seen by the run loop: call index ↦ frame ↦
timestamp ↦ either an exception message or `(annotated frame, results)`. -/
structure PluginModel where
  proc : Nat → Frame → ℚ → Except String (Frame × UnifiedResults)

/-- The three signals `FrameProcessorRunner` can emit:
`frame_processed(frame, results, fps, latency_ms, rolling_ms)`,
`error_occurred(msg)`, `stopped()`. -/
inductive RunEvent : Type where
  | frameReady (frame : Frame) (results : UnifiedResults)
      (fps latency_ms rolling_ms : ℚ)
  | errorSig (msg : String)
  | stoppedSig

/-- Whether an event is a `frame_processed` emission. -/
def RunEvent.isFrameReady : RunEvent → Bool
  | .frameReady _ _ _ _ _ => true
  | _ => false

/-- The `(frame, results)` payload of a `frame_processed` emission. -/
def RunEvent.payload : RunEvent → Option (Frame × UnifiedResults)
  | .frameReady f r _ _ _ => some (f, r)
  | _ => none

/-- Body of `_run_loop` from iteration `i` with remaining frames `frames` and
FPS-counter state `c`: returns the emitted events and the final value of the
`_running` flag. -/
def runLoopFrom (plugin : Option PluginModel) (stopReq : Nat → Bool)
    (tsClk tkClk : Nat → ℚ) :
    Nat → List Frame → FPSCounter → List RunEvent × Bool
  | i, frames, c =>
    if stopReq i then ([.stoppedSig], false)
    else
      match frames with
      | [] => ([.stoppedSig], true)
      | f :: rest =>
        let timestamp_s := tsClk i
        match plugin with
        | none =>
            let (evs, r) := runLoopFrom plugin stopReq tsClk tkClk (i + 1) rest c
            (.frameReady f [] 0 0 0 :: evs, r)
        | some p =>
            match p.proc i f timestamp_s with
            | .error msg => ([.errorSig msg, .stoppedSig], false)
            | .ok (annotated, results) =>
                let ((fps, latency_ms), c') := c.tick (tkClk i)
                let rolling_ms := c'.rolling_average_ms
                let (evs, r) :=
                  runLoopFrom plugin stopReq tsClk tkClk (i + 1) rest c'
                (.frameReady annotated results fps latency_ms rolling_ms :: evs, r)

/-- `_run_loop`: reset the FPS counter, then run the loop from iteration 0. -/
def runLoop (plugin : Option PluginModel) (stopReq : Nat → Bool)
    (tsClk tkClk : Nat → ℚ) (frames : List Frame) (c0 : FPSCounter) :
    List RunEvent × Bool :=
  runLoopFrom plugin stopReq tsClk tkClk 0 frames c0.reset

/-- A stop flag cleared by a `stop()` call between iterations `k - 1` and
`k` (never, if `k` exceeds the run's length). -/
def stopAtIter (k : Nat) : Nat → Bool := fun i => decide (k ≤ i)

/-- `FrameProcessorRunner` control state: the `_running` flag, the active
plugin, and a count of worker threads started (each `start()` that is not a
no-op creates a fresh `QThread`). -/
structure RunnerState where
  running : Bool
  plugin : Option PluginModel
  threads_started : Nat

/-- `FrameProcessorRunner.start`: no-op if `_running` is already set,
otherwise set the flag and launch a worker thread. -/
def RunnerState.start (s : RunnerState) : RunnerState :=
  if s.running then s
  else { s with running := true, threads_started := s.threads_started + 1 }

/-- `FrameProcessorRunner.stop`: clear the `_running` flag. -/
def RunnerState.stop (s : RunnerState) : RunnerState :=
  { s with running := false }

/-! ## `plugins/__init__.py` — plugin discovery

Importing a plugin module is an effectful operation on the filesystem and the
Python interpreter; it is modelled by an environment mapping a module name to
what loading it yields: no such file, a module without a `plugin`/`Plugin`
attribute, an exception during import/instantiation, or a plugin instance. -/

/-- A plugin instance as the registry sees it.  The `tag` distinguishes
instances beyond their id (the registry itself only reads `plugin_id`). -/
structure PluginInfo where
  plugin_id : String
  tag : Nat
deriving DecidableEq

/-- Outcome of importing one module file from `plugins/`. -/
inductive LoadOutcome : Type where
  | missing
  | noPluginAttr
  | raises (msg : String)
  | loads (p : PluginInfo)
deriving DecidableEq

/-- `plugins/__init__.py` `_load_plugin_from_module`: `None` when the file is
absent or the module defines no plugin; the plugin otherwise.  An exception
raised by `exec_module` (or by instantiating `Plugin`) is NOT caught — it
propagates to the caller, hence the `Except`. -/
def load_plugin_from_module (env : String → LoadOutcome) (module_name : String) :
    Except String (Option PluginInfo) :=
  match env module_name with
  | .missing => .ok none
  | .noPluginAttr => .ok none
  | .raises msg => .error msg
  | .loads p => .ok (some p)

/-- `plugins/__init__.py` `_BUILTIN_PLUGINS`. -/
def builtin_plugins : List String :=
  ["hands", "pose", "facemesh", "object_detector", "face_detector",
   "gesture_recognizer"]

/-- One step of the accumulation in `discover_plugins`: load the module; if a
plugin came back with a nonempty id not yet seen, append it and record the
id. -/
def discoverStep (env : String → LoadOutcome)
    (acc : List PluginInfo × List String) (module_name : String) :
    Except String (List PluginInfo × List String) :=
  match load_plugin_from_module env module_name with
  | .error msg => .error msg
  | .ok none => .ok acc
  | .ok (some p) =>
      if p.plugin_id ≠ "" ∧ p.plugin_id ∉ acc.2 then
        .ok (acc.1 ++ [p], acc.2 ++ [p.plugin_id])
      else .ok acc

/-- `plugins/__init__.py` `discover_plugins`: fold over the built-in module
names, then over the extra `*.py` files found by the glob (excluding names
starting with `_`, `base.py`, and the built-ins themselves).  An exception
from any single module load propagates out of the whole discovery. -/
def discover_plugins (env : String → LoadOutcome) (extra_files : List String) :
    Except String (List PluginInfo) := do
  let extras := extra_files.filter fun n =>
    !n.startsWith "_" && n != "base" && !builtin_plugins.contains n
  let acc ← (builtin_plugins ++ extras).foldlM (discoverStep env) ([], [])
  return acc.1

/-! ## `plugins/*.py` — the built-in plugins' `process` methods

Each plugin holds an opaque session handle (`None` before `init`).  The
external MediaPipe inference and drawing capability (spec §1: excluded,
supplied per plugin) is the content of the session: it maps a frame and an
integral millisecond timestamp to the task result, and draws annotations on
a copy of the frame.  The conversion of task results into the unified schema
is repository code and is embedded faithfully. -/

/-- `int(timestamp_s * 1000)`: Python `int()` truncates toward zero. -/
def pyInt (q : ℚ) : Int := q.num / q.den

/-- A MediaPipe `Category` (`category_name` and `score` are optional in the
task results; the plugins guard them with `or`-defaults). -/
structure MPCategory where
  category_name : Option String
  score : Option ℚ

/-- A MediaPipe bounding box. -/
structure MPBox where
  origin_x : Int
  origin_y : Int
  width : Int
  height : Int

/-- A MediaPipe `Detection`. -/
structure MPDetection where
  categories : List MPCategory
  bounding_box : MPBox

/-- A MediaPipe normalized landmark (`z` and `visibility` optional). -/
structure MPLandmark where
  x : ℚ
  y : ℚ
  z : Option ℚ
  visibility : Option ℚ

/-- `lm.z or 0.0` (and likewise `c.score or 0.0`): `None` becomes `0.0`;
a present `0.0` also yields `0.0`, so `getD 0` is exact on rationals. -/
def orZero (q : Option ℚ) : ℚ := q.getD 0

/-- `c.category_name or ""`. -/
def orEmpty (s : Option String) : String := s.getD ""

/-- `plugins/face_detector.py`: the opaque detector session
(`FaceDetector.detect_for_video` plus the drawing of detections onto the
frame copy). -/
structure FaceDetectorSession where
  detect_for_video : Frame → Int → List MPDetection
  annotate : Frame → List MPDetection → Frame

/-- `FaceDetectorPlugin.process`.  With no session: return the input frame
and an error-marked empty unified result.  Otherwise run the detector and
convert each detection to `{label, score, bbox}`. -/
def FaceDetectorPlugin.process (detector : Option FaceDetectorSession)
    (frame_bgr : Frame) (timestamp_s : ℚ) : Frame × UnifiedResults :=
  match detector with
  | none =>
      (frame_bgr, unified_results_schema "face_detector" timestamp_s
        none none (some [("error", Val.str "not initialized")]))
  | some s =>
      let timestamp_ms := pyInt (timestamp_s * 1000)
      let result := s.detect_for_video frame_bgr timestamp_ms
      let annotated := s.annotate frame_bgr result
      let detections_list : List Val := result.map fun det =>
        let score := match det.categories.head? with
          | some c => orZero c.score
          | none => 0
        Val.dict
          [ ("label", Val.str "face"),
            ("score", Val.num score),
            ("bbox", Val.dict
              [ ("origin_x", Val.num det.bounding_box.origin_x),
                ("origin_y", Val.num det.bounding_box.origin_y),
                ("width", Val.num det.bounding_box.width),
                ("height", Val.num det.bounding_box.height) ]) ]
      (annotated, unified_results_schema "face_detector" timestamp_s
        (some detections_list) (some [])
        (some [("num_faces", Val.num detections_list.length)]))

/-- `plugins/pose.py`: the opaque `PoseLandmarker` session. -/
structure PoseSession where
  detect_for_video : Frame → Int → List (List MPLandmark)
  annotate : Frame → List (List MPLandmark) → Frame

/-- `PosePlugin.process`. -/
def PosePlugin.process (landmarker : Option PoseSession)
    (frame_bgr : Frame) (timestamp_s : ℚ) : Frame × UnifiedResults :=
  match landmarker with
  | none =>
      (frame_bgr, unified_results_schema "pose" timestamp_s
        none none (some [("error", Val.str "not initialized")]))
  | some s =>
      let timestamp_ms := pyInt (timestamp_s * 1000)
      let result := s.detect_for_video frame_bgr timestamp_ms
      let annotated := s.annotate frame_bgr result
      let landmarks_list : List Val := result.map fun pose_landmarks =>
        Val.list (pose_landmarks.map fun lm =>
          Val.dict
            [ ("x", Val.num lm.x),
              ("y", Val.num lm.y),
              ("z", Val.num (orZero lm.z)),
              ("visibility", Val.num (lm.visibility.getD 0)) ])
      (annotated, unified_results_schema "pose" timestamp_s
        (some []) (some landmarks_list)
        (some [("has_pose", Val.boolean (decide (0 < landmarks_list.length)))]))

/-- `plugins/facemesh.py`: the opaque `FaceLandmarker` session. -/
structure FaceMeshSession where
  detect_for_video : Frame → Int → List (List MPLandmark)
  annotate : Frame → List (List MPLandmark) → Frame

/-- `FaceMeshPlugin.process`. -/
def FaceMeshPlugin.process (landmarker : Option FaceMeshSession)
    (frame_bgr : Frame) (timestamp_s : ℚ) : Frame × UnifiedResults :=
  match landmarker with
  | none =>
      (frame_bgr, unified_results_schema "facemesh" timestamp_s
        none none (some [("error", Val.str "not initialized")]))
  | some s =>
      let timestamp_ms := pyInt (timestamp_s * 1000)
      let result := s.detect_for_video frame_bgr timestamp_ms
      let annotated := s.annotate frame_bgr result
      let landmarks_list : List Val := result.map fun face_landmarks =>
        Val.list (face_landmarks.map fun lm =>
          Val.dict
            [ ("x", Val.num lm.x),
              ("y", Val.num lm.y),
              ("z", Val.num (orZero lm.z)) ])
      (annotated, unified_results_schema "facemesh" timestamp_s
        (some []) (some landmarks_list)
        (some [("num_faces", Val.num landmarks_list.length)]))

/-- `plugins/object_detector.py`: the opaque `ObjectDetector` session. -/
structure ObjectDetectorSession where
  detect_for_video : Frame → Int → List MPDetection
  annotate : Frame → List MPDetection → Frame

/-- `ObjectDetectorPlugin.process`. -/
def ObjectDetectorPlugin.process (detector : Option ObjectDetectorSession)
    (frame_bgr : Frame) (timestamp_s : ℚ) : Frame × UnifiedResults :=
  match detector with
  | none =>
      (frame_bgr, unified_results_schema "object_detector" timestamp_s
        none none (some [("error", Val.str "not initialized")]))
  | some s =>
      let timestamp_ms := pyInt (timestamp_s * 1000)
      let result := s.detect_for_video frame_bgr timestamp_ms
      let annotated := s.annotate frame_bgr result
      let detections_list : List Val := result.map fun det =>
        let label := match det.categories.head? with
          | some c => orEmpty c.category_name
          | none => ""
        let score := match det.categories.head? with
          | some c => orZero c.score
          | none => 0
        Val.dict
          [ ("label", Val.str label),
            ("score", Val.num score),
            ("bbox", Val.dict
              [ ("origin_x", Val.num det.bounding_box.origin_x),
                ("origin_y", Val.num det.bounding_box.origin_y),
                ("width", Val.num det.bounding_box.width),
                ("height", Val.num det.bounding_box.height) ]) ]
      (annotated, unified_results_schema "object_detector" timestamp_s
        (some detections_list) (some [])
        (some [("num_detections", Val.num detections_list.length)]))

/-- Result of `GestureRecognizer.recognize_for_video`. -/
structure GestureResult where
  hand_landmarks : List (List MPLandmark)
  gestures : List (List MPCategory)
  handedness : List (List MPCategory)

/-- `plugins/gesture_recognizer.py`: the opaque `GestureRecognizer`
session. -/
structure GestureSession where
  recognize_for_video : Frame → Int → GestureResult
  annotate : Frame → List (List MPLandmark) → Frame

/-- `detections_list[i]["handedness"] = hand_label` for each
`i, handedness_cats in enumerate(result.handedness)` with
`i < len(detections_list)`: a new key appends at the end of the dict. -/
def addHandedness (dets : List Val) (handedness : List (List MPCategory)) :
    List Val :=
  dets.mapIdx fun i d =>
    match handedness.get? i with
    | none => d
    | some cats =>
        let hand_label : Val :=
          match cats.head? with
          | some c =>
              match c.category_name with
              | some n => Val.str n
              | none => Val.null
          | none => Val.str ""
        match d with
        | Val.dict entries => Val.dict (entries ++ [("handedness", hand_label)])
        | other => other

/-- `GestureRecognizerPlugin.process`. -/
def GestureRecognizerPlugin.process (recognizer : Option GestureSession)
    (frame_bgr : Frame) (timestamp_s : ℚ) : Frame × UnifiedResults :=
  match recognizer with
  | none =>
      (frame_bgr, unified_results_schema "gesture_recognizer" timestamp_s
        none none (some [("error", Val.str "not initialized")]))
  | some s =>
      let timestamp_ms := pyInt (timestamp_s * 1000)
      let result := s.recognize_for_video frame_bgr timestamp_ms
      let annotated := s.annotate frame_bgr result.hand_landmarks
      let landmarks_list : List Val := result.hand_landmarks.map fun hand =>
        Val.list (hand.map fun lm =>
          Val.dict
            [ ("x", Val.num lm.x),
              ("y", Val.num lm.y),
              ("z", Val.num (orZero lm.z)) ])
      let detections_list : List Val :=
        result.gestures.filterMap fun cats =>
          match cats with
          | [] => none
          | c :: _ =>
              some (Val.dict
                [ ("label", Val.str (orEmpty c.category_name)),
                  ("score", Val.num (orZero c.score)) ])
      let detections_list := addHandedness detections_list result.handedness
      (annotated, unified_results_schema "gesture_recognizer" timestamp_s
        (some detections_list) (some landmarks_list)
        (some [("num_hands", Val.num landmarks_list.length)]))

/-! ## Helper lemmas -/

theorem length_dequeAppend (m : Nat) (xs : List ℚ) (v : ℚ) :
    (dequeAppend m xs v).length = min (xs.length + 1) m := by
  unfold dequeAppend
  by_cases h : m < (xs ++ [v]).length <;> simp_all <;> omega

theorem getLast?_dequeAppend (m : Nat) (xs : List ℚ) (v : ℚ) (hm : 0 < m) :
    (dequeAppend m xs v).getLast? = some v := by
  unfold dequeAppend
  by_cases h : m < (xs ++ [v]).length
  · simp only [if_pos h]
    have hle : (xs ++ [v]).length - m ≤ xs.length := by
      simp at h ⊢; omega
    rw [List.drop_append_of_le_length hle, List.getLast?_concat]
  · simp only [if_neg h, List.getLast?_concat]

theorem dequeAppend_full (m : Nat) (xs : List ℚ) (v : ℚ)
    (hfull : xs.length = m) (hm : 0 < m) :
    dequeAppend m xs v = xs.tail ++ [v] := by
  unfold dequeAppend
  have h : m < (xs ++ [v]).length := by simp [hfull]
  simp only [if_pos h]
  have h1 : (xs ++ [v]).length - m = 1 := by simp [hfull]
  rw [h1, List.drop_append_of_le_length (by omega), List.drop_one]

/-- `FPSCounter.tick` never changes `rolling_size` or the rolling window's
`maxlen`, and keeps the rolling window within `maxlen`. -/
theorem tick_rolling_bounds (c : FPSCounter) (now : ℚ) :
    ((c.tick now).2).rolling.maxlen = c.rolling.maxlen ∧
    ((c.tick now).2).rolling.values.length ≤
      max c.rolling.values.length c.rolling.maxlen := by
  unfold FPSCounter.tick
  cases c.last_time <;> simp [RollingAverage.add, length_dequeAppend]

/-! ## Claims -/

/-- C5: every call to `unified_results_schema`, whatever combination of
arguments is supplied (including omitted/`None` detections, landmarks or
metadata), yields a record in which the keys `detections` and `landmarks` are
present and bound to lists — never absent. -/
theorem schema_always_binds_detections_and_landmarks
    (pipeline : String) (timestamp_s : ℚ)
    (detections landmarks : Option (List Val)) (metadata : Option PyDict) :
    (∃ ds, dictLookup
        (unified_results_schema pipeline timestamp_s detections landmarks metadata)
        "detections" = some (Val.list ds)) ∧
    (∃ ls, dictLookup
        (unified_results_schema pipeline timestamp_s detections landmarks metadata)
        "landmarks" = some (Val.list ls)) :=
  ⟨⟨_, rfl⟩, ⟨_, rfl⟩⟩

/-- C6: the first `tick()` after a `reset()` reports latency `0` and FPS `0`;
any subsequent `tick()` whose interval since the previous tick is `Δ = now - t`
reports latency `Δ * 1000` and FPS `1 / Δ` (reciprocal of the most recent
interval), and pushes the interval into the bounded interval window and the
latency into the bounded rolling window. -/
theorem tick_first_and_subsequent :
    (∀ (c : FPSCounter) (t0 : ℚ), ((c.reset).tick t0).1 = (0, 0)) ∧
    (∀ (c : FPSCounter) (t now : ℚ), c.last_time = some t →
      0 < now - t → 0 < c.rolling_size →
      (c.tick now).1 = (1 / (now - t), (now - t) * 1000) ∧
      ((c.tick now).2).frame_times =
        dequeAppend c.rolling_size c.frame_times (now - t) ∧
      ((c.tick now).2).rolling.values =
        dequeAppend c.rolling.maxlen c.rolling.values ((now - t) * 1000)) := by
  constructor
  · intro c t0
    rfl
  · intro c t now hlast hpos hsize
    unfold FPSCounter.tick
    rw [hlast]
    refine ⟨?_, rfl, rfl⟩
    simp [getLast?_dequeAppend c.rolling_size c.frame_times (now - t) hsize]

/-- C6 witness: on a concrete counter, the first tick after reset reports
`(0, 0)` and a second tick two time-units later reports FPS `1/2` and latency
`2000` ms, with the interval `2` retained in the window. -/
theorem tick_first_and_subsequent_witness :
    (((FPSCounter.init 30).reset).tick 1).1 = (0, 0) ∧
    (((((FPSCounter.init 30).reset).tick 1).2).tick 3).1 = (1 / 2, 2000) ∧
    (((((FPSCounter.init 30).reset).tick 1).2).tick 3).2.frame_times = [2] := by
  have h := tick_first_and_subsequent.2 ((((FPSCounter.init 30).reset).tick 1).2)
    1 3 rfl (by norm_num) (by decide)
  refine ⟨tick_first_and_subsequent.1 (FPSCounter.init 30) 1, ?_, ?_⟩
  · rw [h.1]; norm_num
  · rw [h.2.1]
    show dequeAppend 30 [] (3 - 1) = [2]
    norm_num [dequeAppend]

/-- C7: the rolling metrics window is bounded — the runner's counter fixes
`N = 30`; after any sequence of `tick()` calls following a `reset()` the
window never holds more than `maxlen` samples; a full window evicts its oldest
sample FIFO on `add`; `rolling_average_ms` is always the arithmetic mean of
the retained latencies (`0` if the window is empty); and immediately after
`reset()` the window holds `0` samples and `rolling_average_ms` is `0`. -/
theorem rolling_window_invariants :
    (FPSCounter.default.rolling_size = 30 ∧
     FPSCounter.default.rolling.maxlen = 30) ∧
    (∀ (c0 : FPSCounter) (times : List ℚ),
      ((times.foldl (fun c t => (c.tick t).2) c0.reset)).rolling.values.length ≤
        c0.rolling.maxlen) ∧
    (∀ (r : RollingAverage) (v : ℚ), r.values.length ≤ r.maxlen →
      ((r.add v).values.length ≤ r.maxlen ∧
       (r.values.length = r.maxlen → 0 < r.maxlen →
         (r.add v).values = r.values.tail ++ [v]))) ∧
    (∀ c : FPSCounter, c.rolling_average_ms =
      if c.rolling.values = [] then 0
      else c.rolling.values.sum / c.rolling.values.length) ∧
    (∀ c : FPSCounter, ((c.reset).rolling.values.length = 0 ∧
      (c.reset).rolling_average_ms = 0)) := by
  refine ⟨⟨rfl, rfl⟩, ?_, ?_, ?_, ?_⟩
  · intro c0 times
    suffices h : ∀ (ts : List ℚ) (c : FPSCounter),
        c.rolling.values.length ≤ c.rolling.maxlen →
        ((ts.foldl (fun c t => (c.tick t).2) c)).rolling.values.length ≤
            (ts.foldl (fun c t => (c.tick t).2) c).rolling.maxlen ∧
        (ts.foldl (fun c t => (c.tick t).2) c).rolling.maxlen =
            c.rolling.maxlen by
      have h0 : (c0.reset).rolling.values.length ≤ (c0.reset).rolling.maxlen := by
        simp [FPSCounter.reset, RollingAverage.clear]
      have hm : (c0.reset).rolling.maxlen = c0.rolling.maxlen := rfl
      have := h times c0.reset h0
      omega
    intro ts
    induction ts with
    | nil => intro c hc; exact ⟨hc, rfl⟩
    | cons t ts ih =>
        intro c hc
        have hb := tick_rolling_bounds c t
        have hstep : ((c.tick t).2).rolling.values.length ≤
            ((c.tick t).2).rolling.maxlen := by omega
        have := ih ((c.tick t).2) hstep
        simp only [List.foldl_cons]
        omega
  · intro r v hle
    constructor
    · simp [RollingAverage.add, length_dequeAppend]
    · intro hfull hpos
      simp [RollingAverage.add, dequeAppend_full r.maxlen r.values v hfull hpos]
  · intro c
    simp [FPSCounter.rolling_average_ms, RollingAverage.average,
      RollingAverage.count]
  · intro c
    simp [FPSCounter.reset, RollingAverage.clear,
      FPSCounter.rolling_average_ms, RollingAverage.average]

/-- C7 witness: with `N = 2`, adding to a full window `[5, 7]` keeps the size
at `2` and evicts the oldest value FIFO; the runner's default counter fixes
`N = 30`; a tick sequence from reset stays within the bound; the average is
the mean; and after reset the window is empty with average `0`. -/
theorem rolling_window_invariants_witness :
    (FPSCounter.default.rolling.maxlen = 30) ∧
    (([(1 : ℚ), 2, 4].foldl (fun c t => (c.tick t).2)
        (FPSCounter.init 30).reset).rolling.values.length ≤ 30) ∧
    ((RollingAverage.mk 2 [5, 7]).add 9).values.length ≤ 2 ∧
    ((RollingAverage.mk 2 [5, 7]).add 9).values = [7, 9] ∧
    (FPSCounter.init 30).rolling_average_ms =
      (if (FPSCounter.init 30).rolling.values = [] then 0
       else (FPSCounter.init 30).rolling.values.sum /
         (FPSCounter.init 30).rolling.values.length) ∧
    ((FPSCounter.init 30).reset).rolling.values.length = 0 ∧
    ((FPSCounter.init 30).reset).rolling_average_ms = 0 := by
  have h := rolling_window_invariants
  have h2 := h.2.2.1 (RollingAverage.mk 2 [5, 7]) 9 (by norm_num)
  refine ⟨h.1.2, h.2.1 (FPSCounter.init 30) [1, 2, 4], h2.1, ?_,
    h.2.2.2.1 (FPSCounter.init 30),
    (h.2.2.2.2 (FPSCounter.init 30)).1, (h.2.2.2.2 (FPSCounter.init 30)).2⟩
  rw [h2.2 (by norm_num) (by norm_num)]
  rfl

/-- C9: `start()` while already running is a no-op (no second worker thread,
state unchanged); `stop()` while idle is a no-op; and the run loop resets the
metrics window before processing any frame, so its behaviour is independent
of whatever stale counter state a prior run left behind (only the configured
window sizes matter). -/
theorem start_stop_idempotent_and_fresh_metrics :
    (∀ s : RunnerState, s.running = true → s.start = s) ∧
    (∀ s : RunnerState, s.running = false → s.stop = s) ∧
    (∀ (plugin : Option PluginModel) (stopReq : Nat → Bool)
        (tsClk tkClk : Nat → ℚ) (frames : List Frame) (c c' : FPSCounter),
      c.rolling_size = c'.rolling_size → c.rolling.maxlen = c'.rolling.maxlen →
      runLoop plugin stopReq tsClk tkClk frames c =
        runLoop plugin stopReq tsClk tkClk frames c') := by
  refine ⟨?_, ?_, ?_⟩
  · intro s h
    simp [RunnerState.start, h]
  · intro s h
    cases s
    simp_all [RunnerState.stop]
  · intro plugin stopReq tsClk tkClk frames c c' h1 h2
    have : c.reset = c'.reset := by
      simp [FPSCounter.reset, RollingAverage.clear, h1, h2]
    simp [runLoop, this]

/-- C9 witness: concrete no-op `start`/`stop` calls and a concrete run whose
result is unaffected by a dirty prior counter state. -/
theorem start_stop_idempotent_and_fresh_metrics_witness :
    (RunnerState.mk true none 1).start = RunnerState.mk true none 1 ∧
    (RunnerState.mk false none 0).stop = RunnerState.mk false none 0 ∧
    runLoop none (fun _ => false) (fun _ => 0) (fun _ => 0) [3]
        (FPSCounter.mk 30 (some 99) [7] (RollingAverage.mk 30 [5])) =
      runLoop none (fun _ => false) (fun _ => 0) (fun _ => 0) [3]
        (FPSCounter.init 30) :=
  ⟨start_stop_idempotent_and_fresh_metrics.1 _ rfl,
   start_stop_idempotent_and_fresh_metrics.2.1 _ rfl,
   start_stop_idempotent_and_fresh_metrics.2.2 none (fun _ => false)
     (fun _ => 0) (fun _ => 0) [3] _ _ rfl rfl⟩

/-- C10: on every built-in plugin present in `plugins/`, calling `process`
before `init` (session handle `None`) does not raise: it returns the input
frame unchanged together with a unified-schema result whose `detections` and
`landmarks` are empty and whose `metadata` holds `"error": "not
initialized"`. -/
theorem process_before_init_returns_error_result (frame_bgr : Frame)
    (timestamp_s : ℚ) :
    FaceDetectorPlugin.process none frame_bgr timestamp_s =
      (frame_bgr,
        [ ("pipeline", Val.str "face_detector"),
          ("timestamp_s", Val.num timestamp_s),
          ("detections", Val.list []),
          ("landmarks", Val.list []),
          ("metadata", Val.dict [("error", Val.str "not initialized")]) ]) ∧
    PosePlugin.process none frame_bgr timestamp_s =
      (frame_bgr,
        [ ("pipeline", Val.str "pose"),
          ("timestamp_s", Val.num timestamp_s),
          ("detections", Val.list []),
          ("landmarks", Val.list []),
          ("metadata", Val.dict [("error", Val.str "not initialized")]) ]) ∧
    FaceMeshPlugin.process none frame_bgr timestamp_s =
      (frame_bgr,
        [ ("pipeline", Val.str "facemesh"),
          ("timestamp_s", Val.num timestamp_s),
          ("detections", Val.list []),
          ("landmarks", Val.list []),
          ("metadata", Val.dict [("error", Val.str "not initialized")]) ]) ∧
    ObjectDetectorPlugin.process none frame_bgr timestamp_s =
      (frame_bgr,
        [ ("pipeline", Val.str "object_detector"),
          ("timestamp_s", Val.num timestamp_s),
          ("detections", Val.list []),
          ("landmarks", Val.list []),
          ("metadata", Val.dict [("error", Val.str "not initialized")]) ]) ∧
    GestureRecognizerPlugin.process none frame_bgr timestamp_s =
      (frame_bgr,
        [ ("pipeline", Val.str "gesture_recognizer"),
          ("timestamp_s", Val.num timestamp_s),
          ("detections", Val.list []),
          ("landmarks", Val.list []),
          ("metadata", Val.dict [("error", Val.str "not initialized")]) ]) :=
  ⟨rfl, rfl, rfl, rfl, rfl⟩

/-- After `close`, no handle is held. -/
theorem close_cap_none (s : VideoCaptureSource) (w : CaptureWorld) :
    (s.close w).1.cap = none := by
  unfold VideoCaptureSource.close
  cases hc : s.cap <;> simp [hc]

/-- `close` preserves the handle-ownership invariant. -/
theorem capInv_close (s : VideoCaptureSource) (w : CaptureWorld)
    (h : capInv s w) : capInv (s.close w).1 (s.close w).2 := by
  obtain ⟨h1, h2, h3, h4⟩ := h
  unfold VideoCaptureSource.close
  cases hc : s.cap with
  | none =>
      simp only
      refine ⟨?_, ?_, fun _ => rfl, h4⟩
      · intro hh hlt
        rcases h1 hh hlt with he | he
        · rw [hc] at he; cases he
        · exact Or.inr he
      · intro hh he
        simp only [hc] at he
        exact Option.noConfusion he
  | some hdl =>
      simp only
      refine ⟨?_, ?_, fun _ => rfl, ?_⟩
      · intro hh hlt
        rcases h1 hh hlt with he | he
        · rw [hc] at he
          injection he with he'
          exact Or.inr (he' ▸ List.mem_cons_self hdl w.released)
        · exact Or.inr (List.mem_cons_of_mem _ he)
      · intro hh he
        simp only at he
        cases he
      · intro hh hm
        rcases List.mem_cons.mp hm with he | he
        · rw [he]; exact (h2 hdl hc).1
        · exact h4 hh he

/-- A freshly allocated handle on top of a closed, invariant-respecting state
keeps the invariant. -/
theorem capInv_alloc (s1 : VideoCaptureSource) (w1 : CaptureWorld)
    (h : capInv s1 w1) (hclosed : s1.cap = none)
    (path : Option String) (idx : Nat) :
    capInv ⟨some w1.nextId, path, idx⟩ ⟨w1.nextId + 1, w1.released⟩ := by
  obtain ⟨h1, h2, h3, h4⟩ := h
  refine ⟨?_, ?_, ?_, ?_⟩
  · intro hh hlt
    dsimp only at hlt ⊢
    by_cases he : hh = w1.nextId
    · exact Or.inl (by rw [he])
    · have hlt' : hh < w1.nextId := by omega
      rcases h1 hh hlt' with hcap | hrel
      · rw [hclosed] at hcap; cases hcap
      · exact Or.inr hrel
  · intro hh he
    dsimp only at he ⊢
    injection he with he'
    subst he'
    exact ⟨by omega, fun hmem => by have := h4 _ hmem; omega⟩
  · intro he; cases he
  · intro hh hm
    dsimp only at hm ⊢
    have := h4 hh hm
    omega

/-- Every open/close operation preserves the handle-ownership invariant. -/
theorem capInv_applyCapOp (opensOk : Nat → Bool)
    (sw : VideoCaptureSource × CaptureWorld) (op : CapOp)
    (h : capInv sw.1 sw.2) :
    capInv (applyCapOp opensOk sw op).1 (applyCapOp opensOk sw op).2 := by
  have hcl := capInv_close sw.1 sw.2 h
  have hclosed := close_cap_none sw.1 sw.2
  cases op with
  | closeSource => exact hcl
  | openCamera index =>
      rcases hsw : sw.1.close sw.2 with ⟨s1, w1⟩
      rw [hsw] at hcl hclosed
      simp only [applyCapOp, VideoCaptureSource.open_camera, hsw]
      exact capInv_alloc s1 w1 hcl hclosed none index
  | openFile path =>
      rcases hsw : sw.1.close sw.2 with ⟨s1, w1⟩
      rw [hsw] at hcl hclosed
      simp only [applyCapOp, VideoCaptureSource.open_file, hsw]
      exact capInv_alloc s1 w1 hcl hclosed (some path) s1.camera_index

/-- The handle-ownership invariant holds after any call sequence. -/
theorem capInv_runCapOps (opensOk : Nat → Bool) (ops : List CapOp) :
    capInv (runCapOps opensOk ops).1 (runCapOps opensOk ops).2 := by
  suffices h : ∀ (ops : List CapOp) (sw : VideoCaptureSource × CaptureWorld),
      capInv sw.1 sw.2 →
      capInv (ops.foldl (applyCapOp opensOk) sw).1
        (ops.foldl (applyCapOp opensOk) sw).2 by
    refine h ops _ ?_
    refine ⟨?_, ?_, fun _ => rfl, ?_⟩ <;>
      simp [VideoCaptureSource.init, CaptureWorld.start0]
  intro ops
  induction ops with
  | nil => intro sw h; exact h
  | cons op rest ih =>
      intro sw h
      exact ih _ (capInv_applyCapOp opensOk sw op h)

/-- `close` on a source that is already closed (no handle, no path) is a
no-op. -/
theorem close_noop (s : VideoCaptureSource) (w : CaptureWorld)
    (hc : s.cap = none) (hp : s.source_path = none) : s.close w = (s, w) := by
  cases s
  simp_all [VideoCaptureSource.close]

/-- C8: across every sequence of `open_camera`/`open_file`/`close` calls, at
most one backing handle is unreleased at a time (a new open first closes and
releases the previous handle); opening camera `0` and then file
`"clip.mp4"` leaves the source in file mode holding handle `1`, with the
camera's handle `0` released; and `close()` on an already-closed source is a
no-op. -/
theorem capture_at_most_one_handle (opensOk : Nat → Bool) :
    (∀ ops : List CapOp, ∀ h h',
      h < (runCapOps opensOk ops).2.nextId →
      h' < (runCapOps opensOk ops).2.nextId →
      h ∉ (runCapOps opensOk ops).2.released →
      h' ∉ (runCapOps opensOk ops).2.released → h = h') ∧
    ((runCapOps opensOk [CapOp.openCamera 0, CapOp.openFile "clip.mp4"]).1.source_path
        = some "clip.mp4" ∧
     (runCapOps opensOk [CapOp.openCamera 0, CapOp.openFile "clip.mp4"]).1.cap
        = some 1 ∧
     0 ∈ (runCapOps opensOk [CapOp.openCamera 0, CapOp.openFile "clip.mp4"]).2.released) ∧
    (∀ ops : List CapOp,
      (runCapOps opensOk ops).1.cap = none →
      (runCapOps opensOk ops).1.close (runCapOps opensOk ops).2 =
        ((runCapOps opensOk ops).1, (runCapOps opensOk ops).2)) := by
  refine ⟨?_, ⟨rfl, rfl, by simp [runCapOps, applyCapOp,
    VideoCaptureSource.open_camera, VideoCaptureSource.open_file,
    VideoCaptureSource.close, VideoCaptureSource.init, CaptureWorld.start0]⟩, ?_⟩
  · intro ops h h' hlt hlt' hrel hrel'
    obtain ⟨i1, _, _, _⟩ := capInv_runCapOps opensOk ops
    rcases i1 h hlt with hc | hc
    · rcases i1 h' hlt' with hc' | hc'
      · rw [hc'] at hc
        injection hc with he
        exact he.symm
      · exact absurd hc' hrel'
    · exact absurd hc hrel
  · intro ops hc
    obtain ⟨_, _, i3, _⟩ := capInv_runCapOps opensOk ops
    exact close_noop _ _ hc (i3 hc)

/-- C8 witness: the generic single-open-handle property, the camera-then-file
scenario, and the closed-close no-op, each at a concrete call sequence. -/
theorem capture_at_most_one_handle_witness :
    (1 : Nat) = 1 ∧
    (runCapOps (fun _ => true)
      [CapOp.openCamera 0, CapOp.openFile "clip.mp4"]).1.source_path =
        some "clip.mp4" ∧
    (runCapOps (fun _ => true) []).1.close (runCapOps (fun _ => true) []).2 =
      ((runCapOps (fun _ => true) []).1, (runCapOps (fun _ => true) []).2) :=
  ⟨(capture_at_most_one_handle (fun _ => true)).1
      [CapOp.openCamera 0, CapOp.openFile "clip.mp4"] 1 1
      (by decide) (by decide) (by decide) (by decide),
   (capture_at_most_one_handle (fun _ => true)).2.1.1,
   (capture_at_most_one_handle (fun _ => true)).2.2 [] rfl⟩

/-- C4 counterexample: in pass-through mode (no plugin) the runner emits the
raw frame with the PLAIN EMPTY dict `{}` — a record carrying none of the
unified schema keys (`pipeline`, `detections`, `landmarks` all absent) —
so the claim that the emitted record still carries the unified schema keys is
false on this run. -/
theorem passthrough_schema_keys_counterexample :
    (runLoop none (fun _ => false) (fun _ => 0) (fun _ => 0) [0]
        (FPSCounter.init 30)).1 =
      [RunEvent.frameReady 0 [] 0 0 0, RunEvent.stoppedSig] ∧
    dictLookup [] "pipeline" = none ∧
    dictLookup [] "detections" = none ∧
    dictLookup [] "landmarks" = none :=
  ⟨rfl, rfl, rfl, rfl⟩

/-- C4 amended: in every pass-through iteration the runner emits the raw
frame together with the plain empty dict (no unified-schema keys) and zero
timing values, and continues the loop — one such emission per frame read,
then the terminal stopped signal. -/
theorem passthrough_emits_empty_dict (tsClk tkClk : Nat → ℚ)
    (frames : List Frame) (c0 : FPSCounter) :
    (runLoop none (fun _ => false) tsClk tkClk frames c0).1 =
      frames.map (fun f => RunEvent.frameReady f [] 0 0 0) ++
        [RunEvent.stoppedSig] := by
  suffices h : ∀ (fs : List Frame) (i : Nat) (c : FPSCounter),
      (runLoopFrom none (fun _ => false) tsClk tkClk i fs c).1 =
        fs.map (fun f => RunEvent.frameReady f [] 0 0 0) ++
          [RunEvent.stoppedSig] by
    exact h frames 0 c0.reset
  intro fs
  induction fs with
  | nil => intro i c; simp [runLoopFrom]
  | cons f rest ih =>
      intro i c
      have hres := ih (i + 1) c
      rcases hval : runLoopFrom none (fun _ => false) tsClk tkClk (i + 1) rest c
        with ⟨evs, r⟩
      rw [hval] at hres
      simp only at hres
      simp [runLoopFrom, hval, hres]

/-- Run-loop segment with a succeeding plugin: from iteration `i`, with the
stop flag observed from iteration `k` on, the loop emits one frame-ready
event per frame processed (in read order, `min frames.length (k - i)` of
them) followed by exactly one stopped signal. -/
theorem runLoopFrom_ok_segment (p : PluginModel) (k : Nat)
    (tsClk tkClk : Nat → ℚ) (outs : Nat → Frame × UnifiedResults) :
    ∀ (frames : List Frame) (i : Nat) (c : FPSCounter),
      (∀ j (hj : j < frames.length), i + j < k →
        p.proc (i + j) (frames.get ⟨j, hj⟩) (tsClk (i + j)) =
          Except.ok ((outs (i + j)).1, (outs (i + j)).2)) →
      ∃ evs,
        (runLoopFrom (some p) (stopAtIter k) tsClk tkClk i frames c).1 =
          evs ++ [RunEvent.stoppedSig] ∧
        (∀ e ∈ evs, e.isFrameReady = true) ∧
        evs.filterMap RunEvent.payload =
          (List.range (min frames.length (k - i))).map (fun j => outs (i + j)) := by
  intro frames
  induction frames with
  | nil =>
      intro i c _
      refine ⟨[], ?_, by simp, by simp⟩
      by_cases hs : stopAtIter k i <;> simp [runLoopFrom, hs]
  | cons f rest ih =>
      intro i c hok
      by_cases hs : k ≤ i
      · refine ⟨[], ?_, by simp, ?_⟩
        · simp [runLoopFrom, stopAtIter, hs]
        · have h0 : k - i = 0 := by omega
          simp [h0]
      · have hs' : stopAtIter k i = false := by
          simp only [stopAtIter, decide_eq_false_iff_not]
          omega
        have hpr : p.proc i f (tsClk i) =
            Except.ok ((outs i).1, (outs i).2) := by
          have := hok 0 (Nat.succ_pos _) (by omega)
          simpa using this
        rcases htick : c.tick (tkClk i) with ⟨⟨fps, lat⟩, c'⟩
        have hshift : ∀ j (hj : j < rest.length), (i + 1) + j < k →
            p.proc ((i + 1) + j) (rest.get ⟨j, hj⟩) (tsClk ((i + 1) + j)) =
              Except.ok ((outs ((i + 1) + j)).1, (outs ((i + 1) + j)).2) := by
          intro j hj hk2
          have heq : (i + 1) + j = i + (j + 1) := by omega
          rw [heq]
          exact hok (j + 1) (Nat.succ_lt_succ hj) (by omega)
        obtain ⟨evs, h1, h2, h3⟩ := ih (i + 1) c' hshift
        rcases hrec : runLoopFrom (some p) (stopAtIter k) tsClk tkClk (i + 1)
            rest c' with ⟨evs0, r0⟩
        rw [hrec] at h1
        simp only at h1
        refine ⟨RunEvent.frameReady (outs i).1 (outs i).2 fps lat
          c'.rolling_average_ms :: evs, ?_, ?_, ?_⟩
        · simp [runLoopFrom, hs', hpr, htick, hrec, h1]
        · intro e he
          rcases List.mem_cons.mp he with he | he
          · rw [he]; rfl
          · exact h2 e he
        · have hmin : min (rest.length + 1) (k - i) =
              min rest.length (k - (i + 1)) + 1 := by omega
          have hfun : (fun j => outs ((i + 1) + j)) =
              (fun j => outs (i + (j + 1))) := by
            funext j
            congr 1
            omega
          simp only [List.filterMap_cons, RunEvent.payload, List.length_cons,
            hmin, List.range_succ_eq_map, List.map_cons, List.map_map]
          rw [h3, hfun]
          simp [Function.comp_def]

/-- Run-loop segment with a plugin that raises at absolute call index `e`
(and succeeds before): the loop emits the frame-ready events for calls
`i, …, e - 1`, then exactly one error signal carrying the exception text,
then exactly one stopped signal, and leaves the running flag `false`. -/
theorem runLoopFrom_err_segment (p : PluginModel) (e : Nat) (msg : String)
    (tsClk tkClk : Nat → ℚ) (outs : Nat → Frame × UnifiedResults) :
    ∀ (frames : List Frame) (i : Nat) (c : FPSCounter),
      (∀ j (hj : j < frames.length), i + j ≤ e →
        p.proc (i + j) (frames.get ⟨j, hj⟩) (tsClk (i + j)) =
          (if i + j = e then Except.error msg
           else Except.ok ((outs (i + j)).1, (outs (i + j)).2))) →
      i ≤ e → e - i < frames.length →
      ∃ evs,
        runLoopFrom (some p) (fun _ => false) tsClk tkClk i frames c =
          (evs ++ [RunEvent.errorSig msg, RunEvent.stoppedSig], false) ∧
        (∀ ev ∈ evs, ev.isFrameReady = true) ∧
        evs.filterMap RunEvent.payload =
          (List.range (e - i)).map (fun j => outs (i + j)) := by
  intro frames
  induction frames with
  | nil =>
      intro i c _ _ hlen
      exact absurd hlen (by simp)
  | cons f rest ih =>
      intro i c hok hle hlen
      by_cases hie : i = e
      · have hpr : p.proc i f (tsClk i) = Except.error msg := by
          have := hok 0 (Nat.succ_pos _) (by omega)
          simpa [hie] using this
        refine ⟨[], ?_, by simp, by simp [hie]⟩
        simp [runLoopFrom, hpr]
      · have hlt : i < e := by omega
        have hpr : p.proc i f (tsClk i) =
            Except.ok ((outs i).1, (outs i).2) := by
          have := hok 0 (Nat.succ_pos _) (by omega)
          simpa [show ¬(i = e) from hie] using this
        rcases htick : c.tick (tkClk i) with ⟨⟨fps, lat⟩, c'⟩
        have hshift : ∀ j (hj : j < rest.length), (i + 1) + j ≤ e →
            p.proc ((i + 1) + j) (rest.get ⟨j, hj⟩) (tsClk ((i + 1) + j)) =
              (if (i + 1) + j = e then Except.error msg
               else Except.ok ((outs ((i + 1) + j)).1,
                 (outs ((i + 1) + j)).2)) := by
          intro j hj hk2
          have heq : (i + 1) + j = i + (j + 1) := by omega
          rw [heq]
          exact hok (j + 1) (Nat.succ_lt_succ hj) (by omega)
        have hlen' : e - (i + 1) < rest.length := by
          simp only [List.length_cons] at hlen
          omega
        obtain ⟨evs, h1, h2, h3⟩ := ih (i + 1) c' hshift (by omega) hlen'
        refine ⟨RunEvent.frameReady (outs i).1 (outs i).2 fps lat
          c'.rolling_average_ms :: evs, ?_, ?_, ?_⟩
        · simp [runLoopFrom, hpr, htick, h1]
        · intro ev he
          rcases List.mem_cons.mp he with he | he
          · rw [he]; rfl
          · exact h2 ev he
        · have hmin : e - i = (e - (i + 1)) + 1 := by omega
          have hfun : (fun j => outs ((i + 1) + j)) =
              (fun j => outs (i + (j + 1))) := by
            funext j
            congr 1
            omega
          simp only [List.filterMap_cons, RunEvent.payload, hmin,
            List.range_succ_eq_map, List.map_cons, List.map_map]
          rw [h3, hfun]
          simp [Function.comp_def]

/-- C2: a run in which the plugin succeeds on every processed frame emits one
frame-ready signal per successfully read and processed frame, carrying
exactly the plugin's `(annotated frame, results)` outputs in read order —
no reordering, no dropped emission — followed by exactly one stopped signal,
whether the run ends by the source's read failing (end-of-stream, `k` beyond
the frame count) or by a `stop()` request observed at iteration `k`. -/
theorem runner_emits_frames_in_order_then_stopped (p : PluginModel) (k : Nat)
    (tsClk tkClk : Nat → ℚ) (frames : List Frame) (c0 : FPSCounter)
    (outs : Nat → Frame × UnifiedResults)
    (hok : ∀ j (hj : j < frames.length), j < k →
      p.proc j (frames.get ⟨j, hj⟩) (tsClk j) =
        Except.ok ((outs j).1, (outs j).2)) :
    ∃ evs,
      (runLoop (some p) (stopAtIter k) tsClk tkClk frames c0).1 =
        evs ++ [RunEvent.stoppedSig] ∧
      (∀ e ∈ evs, e.isFrameReady = true) ∧
      evs.filterMap RunEvent.payload =
        (List.range (min frames.length k)).map (fun j => outs j) := by
  have h := runLoopFrom_ok_segment p k tsClk tkClk outs frames 0 c0.reset
    (fun j hj hk => by simpa using hok j hj (by omega))
  simpa [runLoop] using h

/-- C2 witness: a concrete three-frame run with an always-succeeding plugin
and no stop request emits three frame-ready events with the plugin outputs in
order, then one stopped signal. -/
theorem runner_emits_frames_in_order_then_stopped_witness :
    ∃ evs,
      (runLoop (some ⟨fun _ f _ => Except.ok (f + 100, [])⟩) (stopAtIter 9)
          (fun _ => 0) (fun i => i) [5, 6, 7] (FPSCounter.init 30)).1 =
        evs ++ [RunEvent.stoppedSig] ∧
      (∀ e ∈ evs, e.isFrameReady = true) ∧
      evs.filterMap RunEvent.payload =
        (List.range (min [5, 6, 7].length 9)).map
          (fun j => (([105, 106, 107].getD j 0, ([] : UnifiedResults)) :
            Frame × UnifiedResults)) := by
  refine runner_emits_frames_in_order_then_stopped
    ⟨fun _ f _ => Except.ok (f + 100, [])⟩ 9 (fun _ => 0) (fun i => i)
    [5, 6, 7] (FPSCounter.init 30)
    (fun j => ([105, 106, 107].getD j 0, [])) ?_
  intro j hj hk
  simp only [List.length_cons, List.length_nil] at hj
  interval_cases j <;> rfl

/-- C1: a run in which the plugin raises on its `k`-th invocation (call index
`k - 1`) after `k - 1` successful frames emits exactly the `k - 1` frame-ready
signals in order, then exactly one error signal whose payload is the
exception's message text, then exactly one stopped signal (nothing after it,
no duplicate), leaves the running flag `false` (Idle), and never invokes the
plugin again. -/
theorem plugin_failure_stops_run_once (p : PluginModel) (k : Nat)
    (msg : String) (tsClk tkClk : Nat → ℚ) (frames : List Frame)
    (c0 : FPSCounter) (outs : Nat → Frame × UnifiedResults)
    (hk : 0 < k) (hlen : k ≤ frames.length)
    (hok : ∀ j (hj : j < frames.length), j < k - 1 →
      p.proc j (frames.get ⟨j, hj⟩) (tsClk j) =
        Except.ok ((outs j).1, (outs j).2))
    (herr : ∀ (hj : k - 1 < frames.length),
      p.proc (k - 1) (frames.get ⟨k - 1, hj⟩) (tsClk (k - 1)) =
        Except.error msg) :
    ∃ evs,
      runLoop (some p) (fun _ => false) tsClk tkClk frames c0 =
        (evs ++ [RunEvent.errorSig msg, RunEvent.stoppedSig], false) ∧
      (∀ ev ∈ evs, ev.isFrameReady = true) ∧
      evs.filterMap RunEvent.payload =
        (List.range (k - 1)).map (fun j => outs j) := by
  have hcomb : ∀ j (hj : j < frames.length), 0 + j ≤ k - 1 →
      p.proc (0 + j) (frames.get ⟨j, hj⟩) (tsClk (0 + j)) =
        (if 0 + j = k - 1 then Except.error msg
         else Except.ok ((outs (0 + j)).1, (outs (0 + j)).2)) := by
    intro j hj hle
    simp only [Nat.zero_add]
    by_cases hj' : j = k - 1
    · subst hj'
      simp only [if_pos rfl]
      exact herr hj
    · simp only [if_neg hj']
      exact hok j hj (by omega)
  have h := runLoopFrom_err_segment p (k - 1) msg tsClk tkClk outs frames 0
    c0.reset hcomb (by omega) (by omega)
  simpa [runLoop] using h

/-- C1 witness: a concrete plugin that raises `"boom"` on its 5th invocation
(call index 4) after 4 successes: the run emits 4 frame-ready events, one
error `"boom"`, one stopped, and the running flag ends `false`. -/
theorem plugin_failure_stops_run_once_witness :
    ∃ evs,
      runLoop (some ⟨fun i _ _ => if i = 4 then Except.error "boom"
          else Except.ok (9, [])⟩) (fun _ => false)
        (fun _ => 0) (fun i => i) [1, 2, 3, 4, 5, 6] (FPSCounter.init 30) =
        (evs ++ [RunEvent.errorSig "boom", RunEvent.stoppedSig], false) ∧
      (∀ ev ∈ evs, ev.isFrameReady = true) ∧
      evs.filterMap RunEvent.payload =
        (List.range (5 - 1)).map
          (fun _ => ((9, ([] : UnifiedResults)) : Frame × UnifiedResults)) := by
  refine plugin_failure_stops_run_once
    ⟨fun i _ _ => if i = 4 then Except.error "boom" else Except.ok (9, [])⟩
    5 "boom" (fun _ => 0) (fun i => i) [1, 2, 3, 4, 5, 6] (FPSCounter.init 30)
    (fun _ => (9, [])) (by norm_num) (by norm_num) ?_ ?_
  · intro j hj hk
    simp only [show 5 - 1 = 4 from rfl] at hk
    simp [PluginModel.proc, show ¬(j = 4) by omega]
  · intro hj
    rfl

/-- C3 counterexample: with the `pose` module raising on import (e.g. a
missing optional dependency) and every other module loading fine,
`discover_plugins` does not return the remaining plugins — the exception
propagates and discovery aborts with it. -/
theorem discovery_aborts_on_raising_module_counterexample :
    discover_plugins
      (fun n => if n = "pose" then LoadOutcome.raises "No module named mediapipe"
        else LoadOutcome.loads ⟨n, 0⟩) [] =
      Except.error "No module named mediapipe" := by
  rfl

/-- C3 amended: discovery tolerates a built-in plugin module that fails to
load by being absent or by defining no `plugin`/`Plugin` attribute — it is
skipped and the remaining five plugins are all returned, each reachable by
its `plugin_id`; but a module whose import/instantiation raises aborts
discovery (see the counterexample). -/
theorem discovery_tolerates_absent_or_attrless_module
    (env : String → LoadOutcome) (tags : String → Nat) (b : String)
    (hb : b ∈ builtin_plugins)
    (hfail : env b = LoadOutcome.missing ∨ env b = LoadOutcome.noPluginAttr)
    (hok : ∀ n, n ∈ builtin_plugins → n ≠ b →
      env n = LoadOutcome.loads ⟨n, tags n⟩) :
    discover_plugins env [] =
      Except.ok ((builtin_plugins.filter (fun n => n != b)).map
        (fun n => PluginInfo.mk n (tags n))) ∧
    (∀ n, n ∈ builtin_plugins → n ≠ b →
      ((builtin_plugins.filter (fun n => n != b)).map
        (fun n => PluginInfo.mk n (tags n))).find?
          (fun q => q.plugin_id == n) = some (PluginInfo.mk n (tags n))) := by
  constructor
  · fin_cases hb <;> rcases hfail with hf | hf <;>
      simp [discover_plugins, builtin_plugins, List.foldlM, discoverStep,
        load_plugin_from_module, hf, hok, Bind.bind, Except.bind, pure,
        Except.pure]
  · intro n hn hne
    fin_cases hb <;> fin_cases hn <;>
      simp_all [builtin_plugins, List.find?, List.filter]

/-- C3 witness: with the `hands` module absent (as in this repository, where
`plugins/hands.py` does not exist) and the other five modules loading their
plugins, discovery returns all five, each reachable by its id. -/
theorem discovery_tolerates_absent_module_witness :
    discover_plugins
      (fun n => if n = "hands" then LoadOutcome.missing
        else LoadOutcome.loads ⟨n, 0⟩) [] =
      Except.ok ((builtin_plugins.filter (fun n => n != "hands")).map
        (fun n => PluginInfo.mk n 0)) := by
  refine (discovery_tolerates_absent_or_attrless_module
    (fun n => if n = "hands" then LoadOutcome.missing
      else LoadOutcome.loads ⟨n, 0⟩) (fun _ => 0) "hands"
    (by simp [builtin_plugins]) (Or.inl (by simp)) ?_).1
  intro n hn hne
  simp [hne]

end MediaPipe
